import Mathlib

/-!
Shallow embedding of the WiredTiger I/O capacity throttle
(`__capacity_config`, `__wt_capacity_signal`, `__capacity_reserve`,
`__wt_capacity_throttle` and the capacity-server state effects).

All 64-bit unsigned machine arithmetic is modelled over `Nat` with an
explicit modulus `U64 = 2 ^ 64` where the C code can wrap: `wadd` is
`uint64_t` addition, `wsub` is `uint64_t` subtraction.  The connection
state is a record of the fields the throttle reads or mutates, together
with the statistics counters and the list of sleeps performed (the test
double for `__wt_sleep`).  Concurrency is modelled sequentially; the one
contended step, the steal CAS, takes an adversary bit `casFails` saying
whether another thread invalidated the victim's clock between the read
and the CAS.
-/

namespace WTCapacity

def U64 : Nat := 2 ^ 64

/-- `uint64_t` addition (wraps modulo `2^64`). -/
def wadd (a b : Nat) : Nat := (a + b) % U64

/-- `uint64_t` subtraction (wraps modulo `2^64`); assumes `a < U64`. -/
def wsub (a b : Nat) : Nat := (a + (U64 - b % U64)) % U64

def WT_BILLION : Nat := 1000000000
def WT_THOUSAND : Nat := 1000
def WT_CAPACITY_PCT : Nat := 10
def WT_CAPACITY_SLEEP_CUTOFF_US : Nat := 100

def WT_CAP_CKPT : Nat := 10
def WT_CAP_EVICT : Nat := 60
def WT_CAP_LOG : Nat := 20
def WT_CAP_READ : Nat := 60

/-- `WT_CAPACITY(total, pct)`: `((total) * (pct) / 100)` — the product
is computed in `uint64_t`, so it wraps modulo `2^64` before the
division by 100. -/
def WT_CAPACITY (total pct : Nat) : Nat := total * pct % U64 / 100

/-- `WT_RESERVATION_NS(bytes, capacity)`: `((bytes) * WT_BILLION) / (capacity)`
    computed in `uint64_t` (the product wraps; the quotient is exact). -/
def WT_RESERVATION_NS (bytes capacity : Nat) : Nat :=
  bytes * WT_BILLION % U64 / capacity

/-- The EINVAL errno value returned by `WT_CAPACITY_CHK`. -/
def EINVAL : Nat := 22

/-- The four throttle classes (`WT_THROTTLE_TYPE`). -/
inductive ThrottleType where
  | ckpt | evict | log | read
deriving DecidableEq, Repr

/-- The connection-scoped throttle state: exactly the `WT_CONNECTION_IMPL`
fields the file reads or mutates, the statistics counters it increments,
a count of condition-variable wakeups, and a log of the sleeps performed. -/
structure Conn where
  capacity_total : Nat := 0
  capacity_ckpt : Nat := 0
  capacity_evict : Nat := 0
  capacity_log : Nat := 0
  capacity_read : Nat := 0
  reservation_ckpt : Nat := 0
  reservation_evict : Nat := 0
  reservation_log : Nat := 0
  reservation_read : Nat := 0
  reservation_total : Nat := 0
  capacity_written : Nat := 0
  capacity_threshold : Nat := 0
  capacity_signalled : Bool := false
  recovering : Bool := false
  stat_bytes_written : Nat := 0
  stat_bytes_read : Nat := 0
  stat_signal_calls : Nat := 0
  stat_signals : Nat := 0
  cond_wakes : Nat := 0
  stat_ckpt_calls : Nat := 0
  stat_evict_calls : Nat := 0
  stat_log_calls : Nat := 0
  stat_read_calls : Nat := 0
  stat_total_throttles : Nat := 0
  stat_total_time : Nat := 0
  stat_ckpt_throttles : Nat := 0
  stat_ckpt_time : Nat := 0
  stat_evict_throttles : Nat := 0
  stat_evict_time : Nat := 0
  stat_log_throttles : Nat := 0
  stat_log_time : Nat := 0
  stat_read_throttles : Nat := 0
  stat_read_time : Nat := 0
  sleeps : List Nat := []
deriving DecidableEq, Repr

/-- A freshly created connection: uncapped, all clocks and counters zero. -/
def connInit : Conn := {}

/-- The class capacity resolved by the `switch` in `__wt_capacity_throttle`. -/
def capacityOf (c : Conn) : ThrottleType → Nat
  | .ckpt => c.capacity_ckpt
  | .evict => c.capacity_evict
  | .log => c.capacity_log
  | .read => c.capacity_read

/-- The class reservation clock resolved by the same `switch`. -/
def reservationOf (c : Conn) : ThrottleType → Nat
  | .ckpt => c.reservation_ckpt
  | .evict => c.reservation_evict
  | .log => c.reservation_log
  | .read => c.reservation_read

/-- Store a value into a class reservation clock. -/
def setReservation (c : Conn) (ty : ThrottleType) (v : Nat) : Conn :=
  match ty with
  | .ckpt => { c with reservation_ckpt := v }
  | .evict => { c with reservation_evict := v }
  | .log => { c with reservation_log := v }
  | .read => { c with reservation_read := v }

/-- `__capacity_config`: read `io_capacity.total`, validate it with
`WT_CAPACITY_CHK` against the engine minimum `tmin` (`WT_THROTTLE_MIN`),
then set the total, derive the per-class capacities when the total is
nonzero, and recompute the flush threshold as
`(ckpt + evict + log) / 100 * WT_CAPACITY_PCT`.  Returns the new state
and `some EINVAL` when validation fails (the state is then untouched,
as the C check precedes every assignment). -/
def capacityConfig (tmin : Nat) (c : Conn) (total : Nat) : Conn × Option Nat :=
  if total ≠ 0 ∧ total < tmin then (c, some EINVAL)
  else
    let c1 := { c with capacity_total := total }
    let c2 :=
      if total ≠ 0 then
        { c1 with
          capacity_ckpt := WT_CAPACITY total WT_CAP_CKPT
          capacity_evict := WT_CAPACITY total WT_CAP_EVICT
          capacity_log := WT_CAPACITY total WT_CAP_LOG
          capacity_read := WT_CAPACITY total WT_CAP_READ }
      else c1
    ({ c2 with capacity_threshold :=
        (c2.capacity_ckpt + c2.capacity_evict + c2.capacity_log) / 100 *
          WT_CAPACITY_PCT }, none)

/-- `__wt_capacity_signal`: bump the call statistic; when enough bytes
have been written since the last flush and no signal is in flight, wake
the capacity server's condition and publish `capacity_signalled = true`. -/
def signal (c : Conn) : Conn :=
  let c0 := { c with stat_signal_calls := c.stat_signal_calls + 1 }
  if c0.capacity_threshold ≤ c0.capacity_written ∧ c0.capacity_signalled = false
  then
    { c0 with
      cond_wakes := c0.cond_wakes + 1
      capacity_signalled := true
      stat_signals := c0.stat_signals + 1 }
  else c0

/-- `__capacity_reserve` on a clock value: when the capacity is nonzero,
atomically add the reservation length and drift-correct a clock more
than a second behind `now_ns`; returns the new clock value and the
`*result` output (the post-add value, or `now_ns` when uncapped). -/
def capacityReserve (clock bytes capacity now_ns : Nat) : Nat × Nat :=
  if capacity ≠ 0 then
    let res_len := WT_RESERVATION_NS bytes capacity
    let res_value := wadd clock res_len
    if now_ns > res_value ∧ now_ns - res_value > WT_BILLION then
      (wadd (now_ns - WT_BILLION) res_len, res_value)
    else (res_value, res_value)
  else (clock, now_ns)

/-- The victim scan of the steal phase: starting from a threshold of
`now_ns - WT_BILLION / 2` (`uint64_t` arithmetic), examine the classes
in source order ckpt, evict, log, read, skipping the caller's own, and
keep the one whose reservation clock is lowest.  Returns the victim
class together with its observed clock (`best_res`) and its capacity
(`steal_capacity`), or `none` when no clock beats the threshold. -/
def victimScan (c : Conn) (ty : ThrottleType) (now_ns : Nat) :
    Option (ThrottleType × Nat × Nat) :=
  let b0 := wsub now_ns (WT_BILLION / 2)
  let p1 :=
    if ty ≠ ThrottleType.ckpt ∧ c.reservation_ckpt < b0 then
      (some (ThrottleType.ckpt, c.reservation_ckpt, c.capacity_ckpt),
        c.reservation_ckpt)
    else ((none : Option (ThrottleType × Nat × Nat)), b0)
  let p2 :=
    if ty ≠ ThrottleType.evict ∧ c.reservation_evict < p1.2 then
      (some (ThrottleType.evict, c.reservation_evict, c.capacity_evict),
        c.reservation_evict)
    else p1
  let p3 :=
    if ty ≠ ThrottleType.log ∧ c.reservation_log < p2.2 then
      (some (ThrottleType.log, c.reservation_log, c.capacity_log),
        c.reservation_log)
    else p2
  let p4 :=
    if ty ≠ ThrottleType.read ∧ c.reservation_read < p3.2 then
      (some (ThrottleType.read, c.reservation_read, c.capacity_read),
        c.reservation_read)
    else p3
  p4.1

/-- The steal phase of `__wt_capacity_throttle`, entered when the class
reservation ended up in the future while the total reservation did not.
Scans for a victim; when one is found, computes its new clock
`new_res` (rebased to `now_ns - 1s` when its clock is over a second
stale) plus a 1/16-second slice and the caller's own slot against the
victim's capacity, and CASes the victim's clock.  `casFails` is the
adversary bit for that CAS.  On CAS failure the caller gives back both
of its reservations and asks for a retry; on success it buys back
`steal_capacity / 16` bytes against its own clock.  Returns the new
state, the (possibly updated) `res_value`, and the retry flag. -/
def stealPhase (c : Conn) (ty : ThrottleType) (bytes now_ns res_value : Nat)
    (capacity total_capacity : Nat) (casFails : Bool) : Conn × Nat × Bool :=
  match victimScan c ty now_ns with
  | none => (c, res_value, false)
  | some (v, best_res, steal_capacity) =>
    let new_res0 :=
      if best_res < wsub now_ns WT_BILLION ∧ now_ns > WT_BILLION then
        now_ns - WT_BILLION
      else best_res
    let new_res :=
      wadd new_res0 (WT_BILLION / 16 + WT_RESERVATION_NS bytes steal_capacity)
    if casFails then
      ({ setReservation c ty
          (wsub (reservationOf c ty) (WT_RESERVATION_NS bytes capacity)) with
          reservation_total :=
            wsub c.reservation_total
              (WT_RESERVATION_NS bytes total_capacity) },
        res_value, true)
    else
      let c1 := setReservation c v new_res
      let stolen_bytes := steal_capacity / 16
      let rv := wsub (reservationOf c1 ty)
          (WT_RESERVATION_NS stolen_bytes capacity)
      (setReservation c1 ty rv, rv, false)

/-- The tail of `__wt_capacity_throttle`: raise `res_value` to
`res_total_value` if below it, and when the result is in the future
compute `sleep_us`, bump the aggregate or class throttle statistics, and
sleep when `sleep_us` exceeds the 100 µs cutoff (recorded in `sleeps`). -/
def finishPhase (c : Conn) (ty : ThrottleType) (now_ns rv rtv : Nat) : Conn :=
  let res_value := if rv < rtv then rtv else rv
  if res_value > now_ns then
    let sleep_us := (res_value - now_ns) / WT_THOUSAND
    let c1 :=
      if res_value = rtv then
        { c with
          stat_total_throttles := c.stat_total_throttles + 1
          stat_total_time := c.stat_total_time + sleep_us }
      else
        match ty with
        | .ckpt =>
          { c with
            stat_ckpt_throttles := c.stat_ckpt_throttles + 1
            stat_ckpt_time := c.stat_ckpt_time + sleep_us }
        | .evict =>
          { c with
            stat_evict_throttles := c.stat_evict_throttles + 1
            stat_evict_time := c.stat_evict_time + sleep_us }
        | .log =>
          { c with
            stat_log_throttles := c.stat_log_throttles + 1
            stat_log_time := c.stat_log_time + sleep_us }
        | .read =>
          { c with
            stat_read_throttles := c.stat_read_throttles + 1
            stat_read_time := c.stat_read_time + sleep_us }
    if sleep_us > WT_CAPACITY_SLEEP_CUTOFF_US then
      { c1 with sleeps := c1.sleeps ++ [sleep_us] }
    else c1
  else c

/-- One pass of the `again:` loop of `__wt_capacity_throttle`: take the
class and total reservations, run the steal phase when its trigger
condition holds and no steal was attempted yet (`stealAllowed`), and
either request a retry (failed CAS) or finish.  Returns the new state
and the retry flag. -/
def throttlePass (c : Conn) (ty : ThrottleType) (bytes now_ns : Nat)
    (stealAllowed casFails : Bool) : Conn × Bool :=
  let capacity := capacityOf c ty
  let total_capacity := c.capacity_total
  let r1 := capacityReserve (reservationOf c ty) bytes capacity now_ns
  let c1 := setReservation c ty r1.1
  let res_value := r1.2
  let r2 := capacityReserve c1.reservation_total bytes total_capacity now_ns
  let c2 := { c1 with reservation_total := r2.1 }
  let res_total_value := r2.2
  if res_value > now_ns ∧ res_total_value < now_ns ∧ stealAllowed = true ∧
      total_capacity ≠ 0 then
    let s := stealPhase c2 ty bytes now_ns res_value capacity total_capacity
        casFails
    if s.2.2 then (s.1, true)
    else (finishPhase s.1 ty now_ns s.2.1 res_total_value, false)
  else (finishPhase c2 ty now_ns res_value res_total_value, false)

/-- The `again:` retry loop, fuelled.  A retry re-runs the pass with
stealing disabled (the C `steal` pointer stays non-null, disabling the
steal trigger) and a CAS that can no longer be reached. -/
def throttleLoop : Nat → Conn → ThrottleType → Nat → Nat → Bool → Bool → Conn
  | 0, c, _, _, _, _, _ => c
  | fuel + 1, c, ty, bytes, now_ns, stealAllowed, casFails =>
    let r := throttlePass c ty bytes now_ns stealAllowed casFails
    if r.2 then throttleLoop fuel r.1 ty bytes now_ns false false else r.1

/-- The per-class call-statistic increments at the top of
`__wt_capacity_throttle` (they happen before the early exit). -/
def bumpCalls (c : Conn) : ThrottleType → Conn
  | .ckpt => { c with stat_ckpt_calls := c.stat_ckpt_calls + 1 }
  | .evict => { c with stat_evict_calls := c.stat_evict_calls + 1 }
  | .log => { c with stat_log_calls := c.stat_log_calls + 1 }
  | .read => { c with stat_read_calls := c.stat_read_calls + 1 }

/-- `__wt_capacity_throttle session bytes type`, sequentially: resolve
the class capacity, exit early when both the class and total capacities
are zero or the connection is recovering, account the written or read
bytes (non-READ calls also poke the flusher via `signal`), then run the
reservation loop.  `now_ns` is the sampled wall clock and `casFails` the
adversary bit for the single steal CAS.  Two units of loop fuel suffice:
the retry loop runs at most twice (`throttleLoop` stabilises at fuel 2). -/
def throttle (c : Conn) (ty : ThrottleType) (bytes now_ns : Nat)
    (casFails : Bool) : Conn :=
  let capacity := capacityOf c ty
  let total_capacity := c.capacity_total
  let c0 := bumpCalls c ty
  if (capacity = 0 ∧ total_capacity = 0) ∨ c.recovering = true then c0
  else
    let c1 :=
      if ty ≠ ThrottleType.read then
        signal
          { c0 with
            capacity_written := wadd c0.capacity_written bytes
            stat_bytes_written := c0.stat_bytes_written + bytes }
      else { c0 with stat_bytes_read := c0.stat_bytes_read + bytes }
    throttleLoop 2 c1 ty bytes now_ns true casFails

/-- The state effect of one body of the capacity-server loop
(`__capacity_server`): publish `capacity_signalled = false`, then reset
`capacity_written` when it exceeds the threshold (the fsync itself is an
external collaborator). -/
def flusherReset (c : Conn) : Conn :=
  let c0 := { c with capacity_signalled := false }
  if c0.capacity_written > c0.capacity_threshold then
    { c0 with capacity_written := 0 }
  else c0

/-- The states reachable from a fresh connection through the operations
of this file that mutate throttle state: configuration, throttle calls,
flusher signals, and capacity-server cycles.  `tmin` is the engine's
`WT_THROTTLE_MIN`. -/
inductive Reach (tmin : Nat) : Conn → Prop where
  | init : Reach tmin connInit
  | config {c : Conn} (total : Nat) :
      Reach tmin c → Reach tmin (capacityConfig tmin c total).1
  | throttle {c : Conn} (ty : ThrottleType) (bytes now_ns : Nat)
      (casFails : Bool) :
      Reach tmin c → Reach tmin (throttle c ty bytes now_ns casFails)
  | signal {c : Conn} : Reach tmin c → Reach tmin (signal c)
  | flusher {c : Conn} : Reach tmin c → Reach tmin (flusherReset c)

/-! ## Helper lemmas about the machine arithmetic -/

theorem wadd_eq_add {a b : Nat} (h : a + b < U64) : wadd a b = a + b := by
  simp [wadd, Nat.mod_eq_of_lt h]

theorem wsub_eq_sub {a b : Nat} (hba : b ≤ a) (ha : a < U64) (hb : b < U64) :
    wsub a b = a - b := by
  unfold wsub
  rw [Nat.mod_eq_of_lt hb]
  have h1 : a + (U64 - b) = (a - b) + U64 := by omega
  rw [h1, Nat.add_mod_right]
  exact Nat.mod_eq_of_lt (by omega)

theorem reservation_ns_lt_U64 (bytes capacity : Nat) :
    WT_RESERVATION_NS bytes capacity < U64 := by
  unfold WT_RESERVATION_NS
  calc bytes * WT_BILLION % U64 / capacity ≤ bytes * WT_BILLION % U64 :=
        Nat.div_le_self _ _
    _ < U64 := Nat.mod_lt _ (by norm_num [U64])

theorem reservation_ns_eq {bytes : Nat} (capacity : Nat)
    (h : bytes * WT_BILLION < U64) :
    WT_RESERVATION_NS bytes capacity = bytes * WT_BILLION / capacity := by
  simp [WT_RESERVATION_NS, Nat.mod_eq_of_lt h]

/-! ## C2: the flush threshold computation -/

/-- C2 counterexample: a successful `__capacity_config` call with
`io_capacity.total = 2000015` (above a 1 MB minimum) produces per-class
capacities summing to 1800013 and a threshold of `1800013 / 100 * 10 =
180000`, which differs from the claimed exact product-first value
`1800013 * 10 / 100 = 180001`.  So the threshold is not
`(ckpt + evict + log) * 10 / 100` with multiplication first. -/
theorem c2_threshold_counterexample :
    (capacityConfig 1000000 connInit 2000015).2 = none ∧
    (capacityConfig 1000000 connInit 2000015).1.capacity_threshold =
      180000 ∧
    ((capacityConfig 1000000 connInit 2000015).1.capacity_ckpt +
      (capacityConfig 1000000 connInit 2000015).1.capacity_evict +
      (capacityConfig 1000000 connInit 2000015).1.capacity_log) * 10 / 100 =
      180001 ∧
    (capacityConfig 1000000 connInit 2000015).1.capacity_threshold ≠
      ((capacityConfig 1000000 connInit 2000015).1.capacity_ckpt +
        (capacityConfig 1000000 connInit 2000015).1.capacity_evict +
        (capacityConfig 1000000 connInit 2000015).1.capacity_log) * 10 / 100 := by
  refine ⟨by decide, by decide, by decide, by decide⟩

/-- C2 (amended): for every successful configure call the resulting
flush threshold equals `(capacity_ckpt + capacity_evict + capacity_log)
/ 100 * 10` — the integer division by 100 is performed first and the
result is then multiplied by `WT_CAPACITY_PCT = 10`. -/
theorem c2_threshold_div_first (tmin total : Nat) (c cParam : Conn)
    (h : capacityConfig tmin c total = (cParam, none)) :
    cParam.capacity_threshold =
      (cParam.capacity_ckpt + cParam.capacity_evict + cParam.capacity_log)
        / 100 * 10 := by
  unfold capacityConfig at h
  split at h
  · simp at h
  · split at h <;>
      (injection h with h1 h2; subst h1; simp [WT_CAPACITY_PCT])

/-- Witness for `c2_threshold_div_first` at `tmin = 1000000`,
`total = 1000000` from a fresh connection. -/
theorem c2_threshold_div_first_witness :
    (capacityConfig 1000000 connInit 1000000).1.capacity_threshold =
      ((capacityConfig 1000000 connInit 1000000).1.capacity_ckpt +
        (capacityConfig 1000000 connInit 1000000).1.capacity_evict +
        (capacityConfig 1000000 connInit 1000000).1.capacity_log)
        / 100 * 10 :=
  c2_threshold_div_first 1000000 1000000 connInit
    (capacityConfig 1000000 connInit 1000000).1 (by decide)

/-! ## C8: configuration validation and error atomicity -/

/-- C8: with `0 < total < WT_THROTTLE_MIN` (`tmin`), `__capacity_config`
returns EINVAL and the connection state is returned untouched — the
`WT_CAPACITY_CHK` runs before any assignment; with `total = 0` or
`total ≥ tmin` the call succeeds. -/
theorem c8_config_validation (tmin total : Nat) (c : Conn) :
    (0 < total → total < tmin →
      capacityConfig tmin c total = (c, some EINVAL)) ∧
    (total = 0 ∨ tmin ≤ total → (capacityConfig tmin c total).2 = none) := by
  constructor
  · intro h1 h2
    unfold capacityConfig
    rw [if_pos ⟨by omega, h2⟩]
  · intro h
    unfold capacityConfig
    rw [if_neg (by omega)]

/-- Witness for `c8_config_validation`: `total = 5` below a 1 MB
minimum is rejected with the state untouched, and both `total = 0`
and `total = 2000000` succeed. -/
theorem c8_config_validation_witness :
    capacityConfig 1000000 connInit 5 = (connInit, some EINVAL) ∧
    (capacityConfig 1000000 connInit 0).2 = none ∧
    (capacityConfig 1000000 connInit 2000000).2 = none :=
  ⟨(c8_config_validation 1000000 5 connInit).1 (by decide) (by decide),
    (c8_config_validation 1000000 0 connInit).2 (Or.inl rfl),
    (c8_config_validation 1000000 2000000 connInit).2 (Or.inr (by decide))⟩

/-! ## C3: the reservation primitive -/

/-- C3: `__capacity_reserve` with `cap = 0` returns `now_ns` and leaves
the clock unchanged; with `cap ≠ 0` it adds
`slot_ns(bytes, cap) = bytes * 10^9 / cap` to the clock obtaining `v`,
stores `now_ns - 10^9 + slot_ns` into the clock exactly when `v` is more
than one second behind `now_ns` (`v + 10^9 < now_ns`), and returns `v`
(the post-add value) in either case.  The overflow side conditions say
the 64-bit arithmetic is exact. -/
theorem c3_reserve (clock bytes cap now_ns : Nat)
    (hb : bytes * WT_BILLION < U64)
    (hc : clock + bytes * WT_BILLION / cap < U64)
    (hd : now_ns - WT_BILLION + bytes * WT_BILLION / cap < U64) :
    (cap = 0 → capacityReserve clock bytes cap now_ns = (clock, now_ns)) ∧
    (cap ≠ 0 →
      (capacityReserve clock bytes cap now_ns).2 =
        clock + bytes * WT_BILLION / cap ∧
      (clock + bytes * WT_BILLION / cap + WT_BILLION < now_ns →
        (capacityReserve clock bytes cap now_ns).1 =
          now_ns - WT_BILLION + bytes * WT_BILLION / cap) ∧
      (¬ clock + bytes * WT_BILLION / cap + WT_BILLION < now_ns →
        (capacityReserve clock bytes cap now_ns).1 =
          clock + bytes * WT_BILLION / cap)) := by
  constructor
  · intro h0
    simp [capacityReserve, h0]
  · intro hcap
    have hres : WT_RESERVATION_NS bytes cap = bytes * WT_BILLION / cap :=
      reservation_ns_eq cap hb
    have hwadd : wadd clock (bytes * WT_BILLION / cap) =
        clock + bytes * WT_BILLION / cap := wadd_eq_add hc
    refine ⟨?_, ?_, ?_⟩
    · simp only [capacityReserve, hres, hwadd, if_pos hcap]
      split <;> rfl
    · intro hdrift
      simp only [capacityReserve, hres, hwadd, if_pos hcap]
      rw [if_pos (by omega : now_ns > clock + bytes * WT_BILLION / cap ∧
        now_ns - (clock + bytes * WT_BILLION / cap) > WT_BILLION)]
      exact wadd_eq_add hd
    · intro hdrift
      simp only [capacityReserve, hres, hwadd, if_pos hcap]
      rw [if_neg (by omega : ¬ (now_ns > clock + bytes * WT_BILLION / cap ∧
        now_ns - (clock + bytes * WT_BILLION / cap) > WT_BILLION))]

/-- Witness for `c3_reserve`: a drift-corrected reservation —
`clock = 0`, `bytes = 1`, `cap = 1`, `now_ns = 3·10^9` adds a
`10^9` ns slot (returning `v = 10^9`) and stores
`now_ns - 10^9 + slot = 3·10^9` into the clock. -/
theorem c3_reserve_witness :
    (capacityReserve 0 1 1 3000000000).2 = 0 + 1 * WT_BILLION / 1 ∧
    (capacityReserve 0 1 1 3000000000).1 =
      3000000000 - WT_BILLION + 1 * WT_BILLION / 1 :=
  ⟨((c3_reserve 0 1 1 3000000000 (by decide) (by decide)
      (by decide)).2 (by decide)).1,
    ((c3_reserve 0 1 1 3000000000 (by decide) (by decide)
      (by decide)).2 (by decide)).2.1 (by decide)⟩

/-! ## C7: signal characterisation and coalescing -/

/-- Potential function for signal coalescing: the wake count plus one
pending wake when no signal is in flight. -/
def signalPotential (c : Conn) : Nat :=
  c.cond_wakes + (if c.capacity_signalled = false then 1 else 0)

theorem signal_potential_le (c : Conn) :
    signalPotential (signal c) ≤ signalPotential c := by
  unfold signalPotential signal
  by_cases h : c.capacity_threshold ≤ c.capacity_written ∧
      c.capacity_signalled = false
  · rw [if_pos h]
    simp [h.2]
  · rw [if_neg h]

theorem iterate_signal_potential (k : Nat) :
    ∀ c : Conn, signalPotential (signal^[k] c) ≤ signalPotential c := by
  induction k with
  | zero => intro c; simp
  | succ n ih =>
    intro c
    rw [Function.iterate_succ_apply]
    exact le_trans (ih (signal c)) (signal_potential_le c)

/-- C7: `__wt_capacity_signal` wakes the condition, publishes
`capacity_signalled = true` and bumps the signal statistic exactly when
`capacity_written ≥ capacity_threshold` and `capacity_signalled` is
false; otherwise only the call statistic moves.  Consequently any run of
`k` consecutive `signal()` calls with no intervening flusher cycle wakes
the condition at most once. -/
theorem c7_signal_coalescing :
    (∀ c : Conn,
      (c.capacity_threshold ≤ c.capacity_written ∧
          c.capacity_signalled = false →
        signal c =
          { c with
            stat_signal_calls := c.stat_signal_calls + 1
            cond_wakes := c.cond_wakes + 1
            capacity_signalled := true
            stat_signals := c.stat_signals + 1 }) ∧
      (¬ (c.capacity_threshold ≤ c.capacity_written ∧
          c.capacity_signalled = false) →
        signal c =
          { c with stat_signal_calls := c.stat_signal_calls + 1 })) ∧
    (∀ (k : Nat) (c : Conn),
      (signal^[k] c).cond_wakes ≤ c.cond_wakes + 1) := by
  constructor
  · intro c
    constructor
    · intro h
      unfold signal
      rw [if_pos h]
    · intro h
      unfold signal
      rw [if_neg h]
  · intro k c
    have h1 := iterate_signal_potential k c
    unfold signalPotential at h1
    split at h1 <;> split at h1 <;> omega

/-- Witness for `c7_signal_coalescing`: on a fresh connection (threshold
0, nothing written, no signal in flight) one `signal()` wakes the
condition, and three consecutive calls wake it at most once. -/
theorem c7_signal_coalescing_witness :
    signal connInit =
      { connInit with
        stat_signal_calls := 1
        cond_wakes := 1
        capacity_signalled := true
        stat_signals := 1 } ∧
    (signal^[3] connInit).cond_wakes ≤ connInit.cond_wakes + 1 :=
  ⟨(c7_signal_coalescing.1 connInit).1 ⟨by decide, by decide⟩,
    c7_signal_coalescing.2 3 connInit⟩

/-! ## C6: the wait target, the sleep cutoff, and the statistics choice -/

/-- The class-specific throttle counter picked by the statistics chain
at the end of `__wt_capacity_throttle`. -/
def classThrottles (c : Conn) : ThrottleType → Nat
  | .ckpt => c.stat_ckpt_throttles
  | .evict => c.stat_evict_throttles
  | .log => c.stat_log_throttles
  | .read => c.stat_read_throttles

/-- The class-specific throttle-time counter picked by the same chain. -/
def classTime (c : Conn) : ThrottleType → Nat
  | .ckpt => c.stat_ckpt_time
  | .evict => c.stat_evict_time
  | .log => c.stat_log_time
  | .read => c.stat_read_time

theorem if_lt_eq_max (a b : Nat) : (if a < b then b else a) = max a b := by
  split <;> omega

/-- C6: the effective wait target is `wait_ns = max(res_value,
res_total_value)`; a sleep of `(wait_ns - now_ns) / 1000` µs is
performed exactly when `wait_ns > now_ns` and that quotient exceeds the
100 µs cutoff; and the aggregate throttle/time statistics are used
instead of the class-specific ones exactly when the (maxed) `res_value`
equals `res_total_value`. -/
theorem c6_wait_target (c : Conn) (ty : ThrottleType) (now_ns rv rtv : Nat) :
    (finishPhase c ty now_ns rv rtv).sleeps =
      c.sleeps ++
        (if now_ns < max rv rtv ∧ 100 < (max rv rtv - now_ns) / 1000 then
          [(max rv rtv - now_ns) / 1000]
        else []) ∧
    (finishPhase c ty now_ns rv rtv).stat_total_throttles =
      c.stat_total_throttles +
        (if now_ns < max rv rtv ∧ max rv rtv = rtv then 1 else 0) ∧
    (finishPhase c ty now_ns rv rtv).stat_total_time =
      c.stat_total_time +
        (if now_ns < max rv rtv ∧ max rv rtv = rtv then
          (max rv rtv - now_ns) / 1000
        else 0) ∧
    classThrottles (finishPhase c ty now_ns rv rtv) ty =
      classThrottles c ty +
        (if now_ns < max rv rtv ∧ ¬ max rv rtv = rtv then 1 else 0) ∧
    classTime (finishPhase c ty now_ns rv rtv) ty =
      classTime c ty +
        (if now_ns < max rv rtv ∧ ¬ max rv rtv = rtv then
          (max rv rtv - now_ns) / 1000
        else 0) := by
  simp only [finishPhase]
  rw [if_lt_eq_max rv rtv]
  by_cases hnow : max rv rtv > now_ns
  · rw [if_pos hnow]
    by_cases htot : max rv rtv = rtv
    · rw [if_pos htot]
      by_cases hcut : (max rv rtv - now_ns) / WT_THOUSAND >
          WT_CAPACITY_SLEEP_CUTOFF_US
      · rw [if_pos hcut]
        cases ty <;>
          simp_all [classThrottles, classTime, WT_THOUSAND,
            WT_CAPACITY_SLEEP_CUTOFF_US]
      · rw [if_neg hcut]
        cases ty <;>
          simp_all [classThrottles, classTime, WT_THOUSAND,
            WT_CAPACITY_SLEEP_CUTOFF_US]
    · rw [if_neg htot]
      by_cases hcut : (max rv rtv - now_ns) / WT_THOUSAND >
          WT_CAPACITY_SLEEP_CUTOFF_US
      · rw [if_pos hcut]
        cases ty <;>
          simp_all [classThrottles, classTime, WT_THOUSAND,
            WT_CAPACITY_SLEEP_CUTOFF_US]
      · rw [if_neg hcut]
        cases ty <;>
          simp_all [classThrottles, classTime, WT_THOUSAND,
            WT_CAPACITY_SLEEP_CUTOFF_US]
  · rw [if_neg hnow]
    cases ty <;>
      simp_all [classThrottles, classTime]

/-! ## Projection lemmas for the state-update helpers -/

@[simp] theorem setReservation_capacity_total (c : Conn) (ty : ThrottleType)
    (v : Nat) : (setReservation c ty v).capacity_total = c.capacity_total := by
  cases ty <;> rfl

@[simp] theorem setReservation_capacity_ckpt (c : Conn) (ty : ThrottleType)
    (v : Nat) : (setReservation c ty v).capacity_ckpt = c.capacity_ckpt := by
  cases ty <;> rfl

@[simp] theorem setReservation_capacity_evict (c : Conn) (ty : ThrottleType)
    (v : Nat) : (setReservation c ty v).capacity_evict = c.capacity_evict := by
  cases ty <;> rfl

@[simp] theorem setReservation_capacity_log (c : Conn) (ty : ThrottleType)
    (v : Nat) : (setReservation c ty v).capacity_log = c.capacity_log := by
  cases ty <;> rfl

@[simp] theorem setReservation_capacity_read (c : Conn) (ty : ThrottleType)
    (v : Nat) : (setReservation c ty v).capacity_read = c.capacity_read := by
  cases ty <;> rfl

@[simp] theorem capacityOf_setReservation (c : Conn) (ty tz : ThrottleType)
    (v : Nat) : capacityOf (setReservation c ty v) tz = capacityOf c tz := by
  cases ty <;> cases tz <;> rfl

@[simp] theorem reservationOf_setReservation_same (c : Conn)
    (ty : ThrottleType) (v : Nat) :
    reservationOf (setReservation c ty v) ty = v := by
  cases ty <;> rfl

theorem reservationOf_setReservation_ne (c : Conn) {ty tz : ThrottleType}
    (v : Nat) (h : tz ≠ ty) :
    reservationOf (setReservation c ty v) tz = reservationOf c tz := by
  cases ty <;> cases tz <;> first | rfl | exact absurd rfl h

/-! ## The victim scan -/

/-- A victim returned by the scan is a different class than the caller
and is reported with its current reservation clock and its capacity. -/
theorem victimScan_spec {c : Conn} {ty : ThrottleType} {now_ns : Nat}
    {v : ThrottleType} {br scap : Nat}
    (h : victimScan c ty now_ns = some (v, br, scap)) :
    v ≠ ty ∧ reservationOf c v = br ∧ capacityOf c v = scap := by
  simp only [victimScan] at h
  split_ifs at h
  all_goals simp at h
  all_goals obtain ⟨rfl, rfl, rfl⟩ := h
  all_goals refine ⟨?_, ?_, ?_⟩
  all_goals simp_all [reservationOf, capacityOf]
  all_goals (intro hh; subst hh; simp_all)

/-! ## C4: the successful steal -/

/-- C4: when the scan selects victim `v` with observed clock `best_res`
and the CAS succeeds (`casFails = false`), the victim clock is set from
`best_res` to `max(best_res, now_ns - 1s) + 1s/16 +
slot_ns(bytes, steal_capacity)`, and the caller's class clock is
decreased by `slot_ns(steal_capacity / 16, capacity)`, the
post-subtraction value becoming the new `res_value` returned by the
steal phase.  The side conditions rule out `uint64_t` wraparound of the
exact arithmetic. -/
theorem c4_steal_success (c : Conn) (ty : ThrottleType)
    (bytes now_ns res_value capacity total_capacity : Nat)
    (v : ThrottleType) (br scap : Nat)
    (hscan : victimScan c ty now_ns = some (v, br, scap))
    (hb : bytes * WT_BILLION < U64)
    (hq : scap / 16 * WT_BILLION < U64)
    (hnow : now_ns < U64)
    (h1 : max br (now_ns - WT_BILLION) +
      (WT_BILLION / 16 + bytes * WT_BILLION / scap) < U64)
    (h2 : scap / 16 * WT_BILLION / capacity ≤ reservationOf c ty)
    (h3 : reservationOf c ty < U64) :
    reservationOf c v = br ∧
    (stealPhase c ty bytes now_ns res_value capacity total_capacity
      false).2.2 = false ∧
    reservationOf (stealPhase c ty bytes now_ns res_value capacity
      total_capacity false).1 v =
      max br (now_ns - WT_BILLION) + WT_BILLION / 16 +
        bytes * WT_BILLION / scap ∧
    (stealPhase c ty bytes now_ns res_value capacity total_capacity
      false).2.1 =
      reservationOf c ty - scap / 16 * WT_BILLION / capacity ∧
    reservationOf (stealPhase c ty bytes now_ns res_value capacity
      total_capacity false).1 ty =
      (stealPhase c ty bytes now_ns res_value capacity total_capacity
        false).2.1 := by
  obtain ⟨hvty, hres, hcap⟩ := victimScan_spec hscan
  have hbase : (if br < wsub now_ns WT_BILLION ∧ now_ns > WT_BILLION then
      now_ns - WT_BILLION else br) = max br (now_ns - WT_BILLION) := by
    by_cases hgt : now_ns > WT_BILLION
    · have hws : wsub now_ns WT_BILLION = now_ns - WT_BILLION :=
        wsub_eq_sub (by omega) hnow (by norm_num [WT_BILLION, U64])
      rw [hws]
      split <;> omega
    · rw [if_neg (by omega)]
      have : now_ns - WT_BILLION = 0 := by omega
      omega
  have hslot : WT_RESERVATION_NS bytes scap = bytes * WT_BILLION / scap :=
    reservation_ns_eq scap hb
  have hslot2 : WT_RESERVATION_NS (scap / 16) capacity =
      scap / 16 * WT_BILLION / capacity := reservation_ns_eq capacity hq
  have hnewres : wadd (max br (now_ns - WT_BILLION))
      (WT_BILLION / 16 + bytes * WT_BILLION / scap) =
      max br (now_ns - WT_BILLION) + WT_BILLION / 16 +
        bytes * WT_BILLION / scap := by
    rw [wadd_eq_add h1]; omega
  have hsub : wsub (reservationOf c ty) (scap / 16 * WT_BILLION / capacity) =
      reservationOf c ty - scap / 16 * WT_BILLION / capacity := by
    refine wsub_eq_sub h2 h3 ?_
    calc scap / 16 * WT_BILLION / capacity ≤ scap / 16 * WT_BILLION :=
        Nat.div_le_self _ _
      _ < U64 := hq
  have hSP : stealPhase c ty bytes now_ns res_value capacity total_capacity
      false =
      (setReservation
        (setReservation c v
          (max br (now_ns - WT_BILLION) + WT_BILLION / 16 +
            bytes * WT_BILLION / scap))
        ty (reservationOf c ty - scap / 16 * WT_BILLION / capacity),
      reservationOf c ty - scap / 16 * WT_BILLION / capacity, false) := by
    simp only [stealPhase, hscan]
    rw [if_neg Bool.false_ne_true]
    rw [reservationOf_setReservation_ne _ _ (Ne.symm hvty), hbase, hslot,
      hslot2, hnewres, hsub]
  refine ⟨hres, ?_, ?_, ?_, ?_⟩
  · rw [hSP]
  · rw [hSP]
    simp only [reservationOf_setReservation_ne _ _ hvty,
      reservationOf_setReservation_same]
  · rw [hSP]
  · rw [hSP]
    simp only [reservationOf_setReservation_same]

/-- The concrete connection used to witness the steal-phase theorems:
capacities as configured from a 10 MB/s total, the checkpoint class idle
(clock 0), the other clocks at or ahead of `now_ns = 3·10^9`. -/
def stealConn : Conn :=
  { connInit with
    capacity_total := 10000000
    capacity_ckpt := 1000000
    capacity_evict := 6000000
    capacity_log := 2000000
    capacity_read := 6000000
    reservation_ckpt := 0
    reservation_evict := 3000000000
    reservation_log := 3200000000
    reservation_read := 3000000000 }

/-- Witness for `c4_steal_success`: a LOG caller at `now_ns = 3·10^9`
steals from the idle checkpoint class. -/
theorem c4_steal_success_witness :
    reservationOf (stealPhase stealConn ThrottleType.log 200000 3000000000
      3300000000 2000000 10000000 false).1 ThrottleType.ckpt =
      max 0 (3000000000 - WT_BILLION) + WT_BILLION / 16 +
        200000 * WT_BILLION / 1000000 ∧
    (stealPhase stealConn ThrottleType.log 200000 3000000000
      3300000000 2000000 10000000 false).2.1 =
      reservationOf stealConn ThrottleType.log -
        1000000 / 16 * WT_BILLION / 2000000 :=
  ⟨(c4_steal_success stealConn ThrottleType.log 200000 3000000000
      3300000000 2000000 10000000 ThrottleType.ckpt 0 1000000
      (by decide) (by decide) (by decide) (by decide) (by decide)
      (by decide) (by decide)).2.2.1,
    (c4_steal_success stealConn ThrottleType.log 200000 3000000000
      3300000000 2000000 10000000 ThrottleType.ckpt 0 1000000
      (by decide) (by decide) (by decide) (by decide) (by decide)
      (by decide) (by decide)).2.2.2.1⟩

/-! ## C5: the steal phase is attempted at most once -/

theorem throttlePass_no_steal_no_retry (c : Conn) (ty : ThrottleType)
    (bytes now_ns : Nat) (casFails : Bool) :
    (throttlePass c ty bytes now_ns false casFails).2 = false := by
  simp only [throttlePass]
  rw [if_neg (by simp)]

theorem stealPhase_cas_fail (c : Conn) (ty : ThrottleType)
    (bytes now_ns res_value capacity total_capacity : Nat)
    (v : ThrottleType) (br scap : Nat)
    (hscan : victimScan c ty now_ns = some (v, br, scap)) :
    stealPhase c ty bytes now_ns res_value capacity total_capacity true =
      ({ setReservation c ty
          (wsub (reservationOf c ty) (WT_RESERVATION_NS bytes capacity)) with
          reservation_total :=
            wsub c.reservation_total
              (WT_RESERVATION_NS bytes total_capacity) },
        res_value, true) := by
  simp only [stealPhase, hscan]
  simp

/-- C5: the steal phase runs at most once per throttle call.  With
stealing disabled a pass never requests a retry; on a failed victim CAS
the pass gives back `slot_ns(bytes, capacity)` on its own class clock
and `slot_ns(bytes, capacity_total)` on the total clock and asks for
exactly one more pass with stealing disabled; hence the `again:` loop
stabilises after two iterations — any fuel of at least two computes the
same final state, so the operation terminates. -/
theorem c5_steal_once (c : Conn) (ty : ThrottleType) (bytes now_ns : Nat)
    (casFails : Bool) :
    (throttlePass c ty bytes now_ns false casFails).2 = false ∧
    (∀ fuel : Nat,
      throttleLoop (fuel + 2) c ty bytes now_ns true casFails =
        throttleLoop 2 c ty bytes now_ns true casFails) ∧
    (∀ (res_value capacity total_capacity : Nat) (v : ThrottleType)
        (br scap : Nat),
      victimScan c ty now_ns = some (v, br, scap) →
      stealPhase c ty bytes now_ns res_value capacity total_capacity true =
        ({ setReservation c ty
            (wsub (reservationOf c ty)
              (WT_RESERVATION_NS bytes capacity)) with
            reservation_total :=
              wsub c.reservation_total
                (WT_RESERVATION_NS bytes total_capacity) },
          res_value, true)) := by
  refine ⟨throttlePass_no_steal_no_retry c ty bytes now_ns casFails, ?_, ?_⟩
  · intro fuel
    show throttleLoop (fuel + 1 + 1) c ty bytes now_ns true casFails =
      throttleLoop (0 + 1 + 1) c ty bytes now_ns true casFails
    simp only [throttleLoop]
    by_cases hretry : (throttlePass c ty bytes now_ns true casFails).2 = true
    · rw [if_pos hretry, if_pos hretry]
      rw [if_neg (by rw [throttlePass_no_steal_no_retry]; simp),
        if_neg (by rw [throttlePass_no_steal_no_retry]; simp)]
    · rw [if_neg hretry, if_neg hretry]
  · intro res_value capacity total_capacity v br scap hscan
    exact stealPhase_cas_fail c ty bytes now_ns res_value capacity
      total_capacity v br scap hscan

/-- Witness for `c5_steal_once`: on the concrete steal scenario with a
failing CAS, extra fuel changes nothing, a steal-disabled pass does not
retry, and the failed-CAS giveback has the stated shape. -/
theorem c5_steal_once_witness :
    (throttlePass stealConn ThrottleType.log 200000 3000000000
      false true).2 = false ∧
    throttleLoop 7 stealConn ThrottleType.log 200000 3000000000 true true =
      throttleLoop 2 stealConn ThrottleType.log 200000 3000000000
        true true ∧
    stealPhase stealConn ThrottleType.log 200000 3000000000 3300000000
      2000000 10000000 true =
      ({ setReservation stealConn ThrottleType.log
          (wsub (reservationOf stealConn ThrottleType.log)
            (WT_RESERVATION_NS 200000 2000000)) with
          reservation_total :=
            wsub stealConn.reservation_total
              (WT_RESERVATION_NS 200000 10000000) },
        3300000000, true) :=
  ⟨(c5_steal_once stealConn ThrottleType.log 200000 3000000000 true).1,
    (c5_steal_once stealConn ThrottleType.log 200000 3000000000 true).2.1 5,
    (c5_steal_once stealConn ThrottleType.log 200000 3000000000
      true).2.2 3300000000 2000000 10000000 ThrottleType.ckpt 0 1000000
      (by decide)⟩

/-! ## Capacity fields are only ever written by the configuration -/

/-- Two states agree on the five capacity fields. -/
def capsEq (a b : Conn) : Prop :=
  a.capacity_total = b.capacity_total ∧
  a.capacity_ckpt = b.capacity_ckpt ∧
  a.capacity_evict = b.capacity_evict ∧
  a.capacity_log = b.capacity_log ∧
  a.capacity_read = b.capacity_read

theorem capsEq_refl (c : Conn) : capsEq c c := ⟨rfl, rfl, rfl, rfl, rfl⟩

theorem capsEq_trans {a b c : Conn} (h1 : capsEq a b) (h2 : capsEq b c) :
    capsEq a c := by
  obtain ⟨x1, x2, x3, x4, x5⟩ := h1
  obtain ⟨y1, y2, y3, y4, y5⟩ := h2
  exact ⟨x1.trans y1, x2.trans y2, x3.trans y3, x4.trans y4, x5.trans y5⟩

theorem capsEq_capacityOf {a b : Conn} (h : capsEq a b) (ty : ThrottleType) :
    capacityOf a ty = capacityOf b ty := by
  cases ty <;> simp_all [capsEq, capacityOf]

theorem setReservation_caps (c : Conn) (ty : ThrottleType) (v : Nat) :
    capsEq (setReservation c ty v) c := by
  unfold capsEq; simp

theorem mid_caps (c : Conn) (ty : ThrottleType) (x y : Nat) :
    capsEq { setReservation c ty x with reservation_total := y } c := by
  unfold capsEq; simp

theorem finishPhase_caps (c : Conn) (ty : ThrottleType) (now_ns rv rtv : Nat) :
    capsEq (finishPhase c ty now_ns rv rtv) c := by
  unfold capsEq
  cases ty <;> simp only [finishPhase] <;> split_ifs <;> simp

theorem stealPhase_caps (c : Conn) (ty : ThrottleType)
    (bytes now_ns res_value capacity total_capacity : Nat) (cf : Bool) :
    capsEq (stealPhase c ty bytes now_ns res_value capacity total_capacity
      cf).1 c := by
  unfold capsEq
  cases hv : victimScan c ty now_ns with
  | none => simp [stealPhase, hv]
  | some t =>
    obtain ⟨v, br, scap⟩ := t
    cases cf <;> simp [stealPhase, hv]

theorem throttlePass_caps (c : Conn) (ty : ThrottleType) (bytes now_ns : Nat)
    (sa cf : Bool) : capsEq (throttlePass c ty bytes now_ns sa cf).1 c := by
  simp only [throttlePass]
  split_ifs with h1 h2
  · exact capsEq_trans (stealPhase_caps _ _ _ _ _ _ _ _) (mid_caps _ _ _ _)
  · exact capsEq_trans
      (capsEq_trans (finishPhase_caps _ _ _ _ _)
        (stealPhase_caps _ _ _ _ _ _ _ _))
      (mid_caps _ _ _ _)
  · exact capsEq_trans (finishPhase_caps _ _ _ _ _) (mid_caps _ _ _ _)

theorem throttleLoop_caps (fuel : Nat) :
    ∀ (c : Conn) (ty : ThrottleType) (bytes now_ns : Nat) (sa cf : Bool),
      capsEq (throttleLoop fuel c ty bytes now_ns sa cf) c := by
  induction fuel with
  | zero => intro c ty bytes now_ns sa cf; exact capsEq_refl c
  | succ n ih =>
    intro c ty bytes now_ns sa cf
    simp only [throttleLoop]
    split_ifs with h
    · exact capsEq_trans (ih _ _ _ _ _ _) (throttlePass_caps _ _ _ _ _ _)
    · exact throttlePass_caps _ _ _ _ _ _

theorem bumpCalls_caps (c : Conn) (ty : ThrottleType) :
    capsEq (bumpCalls c ty) c := by
  unfold capsEq
  cases ty <;> simp [bumpCalls]

theorem signal_caps (c : Conn) : capsEq (signal c) c := by
  unfold capsEq
  simp only [signal]
  split_ifs <;> simp

theorem flusherReset_caps (c : Conn) : capsEq (flusherReset c) c := by
  unfold capsEq
  simp only [flusherReset]
  split_ifs <;> simp

theorem throttle_caps (c : Conn) (ty : ThrottleType) (bytes now_ns : Nat)
    (cf : Bool) : capsEq (throttle c ty bytes now_ns cf) c := by
  simp only [throttle]
  split_ifs with h1 h2
  · exact bumpCalls_caps c ty
  · exact capsEq_trans (throttleLoop_caps _ _ _ _ _ _ _)
      (capsEq_trans (signal_caps _)
        (capsEq_trans (by unfold capsEq; simp) (bumpCalls_caps c ty)))
  · exact capsEq_trans (throttleLoop_caps _ _ _ _ _ _ _)
      (capsEq_trans (by unfold capsEq; simp) (bumpCalls_caps c ty))

/-! ## C9: the `capacity != 0` assertion fails on an overflowing total -/

/-- An `io_capacity.total` that `__capacity_config` accepts (a valid
positive int64 far above any megabyte-scale `WT_THROTTLE_MIN`) whose
`uint64_t` share products wrap: `total * 10 mod 2^64 = 24` and
`total * 20 mod 2^64 = 48`, so the checkpoint and log shares come out 0,
while `total * 60 mod 2^64 = 144` leaves the eviction and read shares
at 1. -/
def overflowTotal : Nat := 1844674407370955164

/-- The connection configured with `overflowTotal` against a 1 MB/s
minimum: `capacity_total ≠ 0` but `capacity_ckpt = capacity_log = 0`. -/
def overflowConn : Conn := (capacityConfig 1000000 connInit overflowTotal).1

/-- C9 (code bug): configuring `overflowTotal` succeeds and reaches a
state with `capacity_total ≠ 0` but `capacity_ckpt = 0`; a checkpoint
throttle call then passes the early exit (the aggregate capacity is
nonzero, the connection is not recovering) with a zero resolved class
capacity, so `WT_ASSERT(session, capacity != 0)` before the reservation
step fails on a reachable configuration.  The claim that the assertion
is valid for every reachable configuration is therefore false of the
program: the `uint64_t` product in `WT_CAPACITY` wraps and
`WT_CAPACITY_CHK` enforces only a minimum. -/
theorem c9_assert_capacity_overflow :
    (capacityConfig 1000000 connInit overflowTotal).2 = none ∧
    Reach 1000000 overflowConn ∧
    overflowConn.capacity_total ≠ 0 ∧
    ¬ ((capacityOf overflowConn ThrottleType.ckpt = 0 ∧
        overflowConn.capacity_total = 0) ∨
      overflowConn.recovering = true) ∧
    capacityOf overflowConn ThrottleType.ckpt = 0 :=
  ⟨by decide, Reach.config overflowTotal Reach.init, by decide, by decide,
    by decide⟩

/-! ## C10: division by zero on the steal path at the same total -/

/-- The state at the top of the `again:` loop of a
`throttle(EVICT, 1000)` call at `now_ns = 2·10^9` from `overflowConn`:
both reservations taken, exactly as `__wt_capacity_throttle` leaves them
before the steal trigger is evaluated. -/
def overflowMid : Conn :=
  let r1 := capacityReserve (reservationOf overflowConn ThrottleType.evict)
    1000 (capacityOf overflowConn ThrottleType.evict) 2000000000
  let c1 := setReservation overflowConn ThrottleType.evict r1.1
  let r2 := capacityReserve c1.reservation_total 1000
    overflowConn.capacity_total 2000000000
  { c1 with reservation_total := r2.1 }

/-- C10 (code bug): from the reachable `overflowConn`, an EVICT call of
1000 bytes at `now_ns = 2·10^9` satisfies the steal trigger — its class
reservation (`10^12`) is in the future, the total reservation (0) is in
the past, and `capacity_total ≠ 0` — and the victim scan then selects
the checkpoint class (clock 0) with `steal_capacity = 0`.  At that point
the C code fails `WT_ASSERT(session, steal_capacity != 0)` and divides
by zero in `WT_RESERVATION_NS(bytes, steal_capacity)`, so the claim that
no division by zero occurs on the steal path is false of the program. -/
theorem c10_steal_divide_by_zero_overflow :
    Reach 1000000 overflowConn ∧
    (capacityReserve (reservationOf overflowConn ThrottleType.evict) 1000
      (capacityOf overflowConn ThrottleType.evict) 2000000000).2 >
      2000000000 ∧
    (capacityReserve
      (setReservation overflowConn ThrottleType.evict
        (capacityReserve (reservationOf overflowConn ThrottleType.evict)
          1000 (capacityOf overflowConn ThrottleType.evict)
          2000000000).1).reservation_total 1000
      overflowConn.capacity_total 2000000000).2 < 2000000000 ∧
    overflowConn.capacity_total ≠ 0 ∧
    victimScan overflowMid ThrottleType.evict 2000000000 =
      some (ThrottleType.ckpt, 0, 0) :=
  ⟨Reach.config overflowTotal Reach.init, by decide, by decide, by decide,
    by decide⟩

/-! ## C1: the uncapped fast path -/

/-- One uncapped `throttle(LOG, 4096)` call (all capacities zero, wall
clock arbitrary, no CAS adversary). -/
def uncappedStep (c : Conn) : Conn :=
  throttle c ThrottleType.log 4096 1500000000 false

/-- One hundred single-threaded uncapped `throttle(LOG, 4096)` calls on
a fresh connection. -/
def uncappedRun : Conn := uncappedStep^[100] connInit

set_option maxRecDepth 100000 in
/-- C1 counterexample: with every capacity unconfigured, 100 calls of
`throttle(LOG, 4096)` leave the `capacity_bytes_written` statistic at 0,
not 409600 — the early exit at the top of `__wt_capacity_throttle`
returns before the write accounting runs, so uncapped non-READ calls do
not add their bytes. -/
theorem c1_uncapped_counterexample :
    uncappedRun.stat_bytes_written = 0 ∧
    uncappedRun.stat_bytes_written ≠ 409600 := by
  refine ⟨by decide, by decide⟩

set_option maxRecDepth 100000 in
/-- C1 (amended): with every capacity unconfigured, 100 single-threaded
calls of `throttle(LOG, 4096)` perform zero sleeps, advance no
reservation clock, add nothing to `capacity_written`, leave
`capacity_bytes_written` at 0 (the early exit precedes the byte
accounting), and count only the 100 log-call statistics. -/
theorem c1_uncapped_fast_path :
    uncappedRun.sleeps = [] ∧
    uncappedRun.reservation_ckpt = 0 ∧
    uncappedRun.reservation_evict = 0 ∧
    uncappedRun.reservation_log = 0 ∧
    uncappedRun.reservation_read = 0 ∧
    uncappedRun.reservation_total = 0 ∧
    uncappedRun.capacity_written = 0 ∧
    uncappedRun.stat_bytes_written = 0 ∧
    uncappedRun.stat_log_calls = 100 := by
  refine ⟨by decide, by decide, by decide, by decide, by decide, by decide,
    by decide, by decide, by decide⟩

end WTCapacity
